import Mathlib

/-!
# Verification of the pgBackRest server command and TLS server

Shallow embedding of `src/common/io/tls/server.c` (the TLS server driver)
and the server command (`cmdServerInit` / `cmdServerSigHup` / `cmdServer`),
with theorems settling the specification claims.

Conventions:
* OpenSSL calls are modelled through an environment `TlsEnv` recording which
  primitives succeed (method lookup, context allocation, certificate and key
  loading) and whether `SSL_OP_NO_RENEGOTIATION` is available (`#ifdef`).
* Fallible C code (THROW / cryptoError / CHECK) is modelled with `Except` or
  an `Option ErrorType` component in the result.
* Memory management noise (mem contexts, moves, stat counters, logging) is
  dropped except where object lifetime matters: `cmdServerInit` frees the
  previous TLS server, so the server-command state carries an explicit heap
  of live servers addressed by id, and freeing removes an id from the heap
  while leaving pointers (ids held elsewhere) unchanged.
-/

namespace PgBackRest

/-- Error types raised by the modelled code. `ExecuteError` is the code's
name for the spec's ExecutionError (`THROW_ON_SYS_ERROR(..., ExecuteError, ...)`).
`ConfigurationError` models the error raised by `cryptoError` (its body is not
under src/; the spec calls context-build failures ConfigurationError), and
`InvariantViolation` models the error raised by the `CHECK` macro (also not
under src/; the spec calls it InvariantViolation). -/
inductive ErrorType where
  | ConfigurationError
  | TlsError
  | TimeoutError
  | ExecuteError
  | InvariantViolation
  deriving DecidableEq, Repr

/-- The option flags set on an OpenSSL `SSL_CTX`, plus whether the certificate
and private key have been loaded into it. Mirrors the state of
`driver->context` as built by `tlsServerNew`. -/
structure SslCtx where
  noCompression : Bool := false
  noSSLv2 : Bool := false
  noSSLv3 : Bool := false
  noTLSv1 : Bool := false
  noTLSv1_1 : Bool := false
  cipherServerPreference : Bool := false
  noRenegotiation : Bool := false
  noTicket : Bool := false
  sessionCacheOff : Bool := false
  certLoaded : Bool := false
  keyLoaded : Bool := false
  deriving DecidableEq, Repr

/-- Environment for the OpenSSL primitives used by `tlsServerNew`:
whether `SSLv23_method()` and `SSL_CTX_new()` succeed, whether loading a
given certificate / private key file succeeds (covering missing, unreadable,
malformed and mismatched material), and whether the OpenSSL build defines
`SSL_OP_NO_RENEGOTIATION`. -/
structure TlsEnv where
  methodOk : Bool
  ctxOk : Bool
  certLoadOk : String → Bool
  keyLoadOk : String → Bool
  renegotiationSupported : Bool

/-- The `TlsServer` object type of `src/common/io/tls/server.c`:
host, TLS context and I/O timeout. (The mem context field is dropped.) -/
structure TlsServer where
  host : String
  context : SslCtx
  timeout : Nat
  deriving DecidableEq, Repr

/-- `SSL_new(this->context)`: a per-connection SSL handshake object created
from the server's context. -/
structure SslSession where
  ctx : SslCtx
  deriving DecidableEq, Repr

/-- A raw duplex socket session produced by the socket server's accept. -/
structure RawSession where
  id : Nat
  deriving DecidableEq, Repr

/-- The `IoSession` returned by the TLS server's accept: wraps the SSL object
and the raw session, carries the I/O timeout passed to `tlsSessionNew` and
the authenticated flag. The flag is `none` until `ioSessionAuthenticatedSet`
assigns it. -/
structure IoSession where
  ssl : SslSession
  raw : RawSession
  timeout : Nat
  authenticated : Option Bool
  deriving DecidableEq, Repr

/-- Modelled from the spec: `tlsSessionNew` (not under src/) performs the TLS
handshake on the raw session under the given timeout bound and yields the
encrypted session carrying that timeout; the authenticated flag is not yet
assigned. -/
def tlsSessionNew (ssl : SslSession) (raw : RawSession) (timeout : Nat) : IoSession :=
  { ssl := ssl, raw := raw, timeout := timeout, authenticated := none }

/-- Modelled from the spec: `ioSessionAuthenticatedSet` (not under src/)
assigns the session's authenticated flag. -/
def ioSessionAuthenticatedSet (session : IoSession) (authenticated : Bool) : IoSession :=
  { session with authenticated := some authenticated }

/-- `tlsServerInit`: the handshake-initialization hook. Its body in the source
is an empty mem-context block (the init steps are marked `!!!` as not yet
pulled in), so it is a no-op. -/
def tlsServerInit (_this : TlsServer) (_tlsSession : SslSession) : Unit := ()

/-- `tlsServerAuth`: the certificate-authentication hook. Its body sets
`result = false`, runs an empty mem-context block, and returns `result`,
so it returns `false` for every server and every SSL session. -/
def tlsServerAuth (_this : TlsServer) (_tlsSession : SslSession) : Bool :=
  false

/-- `tlsServerAccept`: create an SSL object from the server context, run the
(no-op) init hook, open the TLS session via `tlsSessionNew` with the fixed
60000 ms timeout written in the source (`// !!! FIX TIMEOUT`), then assign
the authenticated flag from `tlsServerAuth`. -/
def tlsServerAccept (this : TlsServer) (ioSession : RawSession) : IoSession :=
  let tlsSession : SslSession := { ctx := this.context }
  let result := tlsSessionNew tlsSession ioSession 60000
  ioSessionAuthenticatedSet result (tlsServerAuth this tlsSession)

/-- `tlsServerNew host keyFile certFile timeout`: build the TLS server.
Mirrors the source order: `cryptoInit`, method lookup, context creation,
`SSL_CTX_set_options` (compression off, SSL/TLS below 1.2 off, server cipher
preference, renegotiation off when available, tickets off), session cache
off, certificate load, private key load. Each `cryptoError` failure raises
`ConfigurationError` (modelled from the spec: `cryptoError`'s body is not
under src/). -/
def tlsServerNew (env : TlsEnv) (host keyFile certFile : String) (timeout : Nat) :
    Except ErrorType TlsServer :=
  if !env.methodOk then .error .ConfigurationError
  else if !env.ctxOk then .error .ConfigurationError
  else
    let ctx : SslCtx :=
      { noCompression := true
        noSSLv2 := true
        noSSLv3 := true
        noTLSv1 := true
        noTLSv1_1 := true
        cipherServerPreference := true
        noRenegotiation := env.renegotiationSupported
        noTicket := true
        sessionCacheOff := true }
    if !env.certLoadOk certFile then .error .ConfigurationError
    else
      let ctx := { ctx with certLoaded := true }
      if !env.keyLoadOk keyFile then .error .ConfigurationError
      else
        let ctx := { ctx with keyLoaded := true }
        .ok { host := host, context := ctx, timeout := timeout }

/-!
## Server command (`cmdServerInit`, `cmdServerSigHup`, `cmdServer`)
-/

/-- The configuration options read by the server command:
`cfgOptTlsServerAddress`, `cfgOptTlsServerPort`, `cfgOptTlsServerCaFile`,
`cfgOptTlsServerKeyFile`, `cfgOptTlsServerCertFile`, `cfgOptTlsServerCrlFile`
(read with `cfgOptionStrNull`, so optional) and `cfgOptProtocolTimeout`. -/
structure Config where
  tlsServerAddress : String
  tlsServerPort : Nat
  tlsServerCaFile : Option String
  tlsServerKeyFile : String
  tlsServerCertFile : String
  tlsServerCrlFile : Option String
  protocolTimeout : Nat
  deriving DecidableEq, Repr

/-- The `serverLocal` state plus an explicit heap of live `TlsServer` objects.
`alive` holds the allocated, not-yet-freed servers addressed by id; `nextId`
is the allocator. `tlsServer` is the `serverLocal.tlsServer` pointer: an id
that may dangle after the object it names has been freed (freeing removes
the object from `alive` but does not clear the pointer, exactly as
`ioServerFree(serverLocal.tlsServer)` leaves the C pointer in place). -/
structure ServerState where
  nextId : Nat
  alive : List (Nat × TlsServer)
  tlsServer : Option Nat
  deriving DecidableEq, Repr

/-- The context that is active and serving for new connections: the object
the `serverLocal.tlsServer` pointer names, provided it is still live. -/
def activeContext (st : ServerState) : Option TlsServer :=
  match st.tlsServer with
  | none => none
  | some id =>
    match st.alive.find? (fun p => p.1 == id) with
    | none => none
    | some p => some p.2

/-- `ioServerFree(serverLocal.tlsServer)`: remove the pointed-to server from
the heap; the pointer itself is unchanged (and now dangles). A `none`
pointer is a no-op (`ioServerFree(NULL)` is allowed). -/
def ioServerFreeActive (st : ServerState) : ServerState :=
  match st.tlsServer with
  | none => st
  | some id => { st with alive := st.alive.filter (fun p => p.1 != id) }

/-- `cmdServerInit`: free the old TLS server, then create a new one with
`tlsServerNew` and install it as `serverLocal.tlsServer`.

The source call site passes the CA-file and CRL-file options as well
(`cfgOptionStr(cfgOptTlsServerCaFile)`, `cfgOptionStrNull(cfgOptTlsServerCrlFile)`),
but the `tlsServerNew` definition in `src/common/io/tls/server.c` accepts
only host, key file, certificate file and timeout, so only those four reach
the constructor and the CA/CRL options do not flow into the built context.

On a `tlsServerNew` failure the raised error propagates (second component);
note the old server has already been freed by then. -/
def cmdServerInit (env : TlsEnv) (cfg : Config) (st : ServerState) :
    ServerState × Option ErrorType :=
  -- Free the old TLS server
  let st := ioServerFreeActive st
  -- Create new TLS server
  match tlsServerNew env cfg.tlsServerAddress cfg.tlsServerKeyFile cfg.tlsServerCertFile
      cfg.protocolTimeout with
  | .error e => (st, some e)
  | .ok srv =>
    ({ nextId := st.nextId + 1
       alive := st.alive ++ [(st.nextId, srv)]
       tlsServer := some st.nextId }, none)

/-- `cmdServerSigHup`: reload configuration (`cfgLoad` re-derives the
configuration from the preserved startup arguments; it is not under src/, so
its result is the `cfg` parameter) and reinitialize the server. -/
def cmdServerSigHup (env : TlsEnv) (cfg : Config) (st : ServerState) :
    ServerState × Option ErrorType :=
  cmdServerInit env cfg st

/-!
## The accept loop of `cmdServer`

One iteration of the `do { ... } while (true)` loop, split into the parent
(supervisor) path and the child (worker) path of the `forkSafe()` branch.
Per-connection observable outcomes of the primitives the loop calls are
collected in `ConnEvent`.
-/

/-- The observable outcome of the primitives invoked while handling one
iteration of the accept loop:
* `sessionNull` — `ioServerAccept` returned NULL (no connection);
* `waitOk` — `waitpid` on the first fork succeeded;
* `intermediateStatus` — `some c` when the first fork exited normally with
  status `c` (`WIFEXITED`), `none` when it terminated abnormally;
* `establish` — the worker's `protocolServer` call: `.server` when a
  protocol server is returned, `.null` when NULL is returned, `.raised e`
  when the handshake raises (TlsError / TimeoutError). -/
inductive EstablishResult where
  | server
  | null
  | raised (e : ErrorType)
  deriving DecidableEq, Repr

structure ConnEvent where
  sessionNull : Bool
  waitOk : Bool
  intermediateStatus : Option Nat
  establish : EstablishResult
  deriving DecidableEq, Repr

/-- How one loop iteration ends for the process executing it. -/
inductive LoopControl where
  | contin
  | brk
  | err (e : ErrorType)
  deriving DecidableEq, Repr

/-- The supervisor (parent, `pid != 0`) path of one loop iteration: if a
session was accepted, wait for the first fork (`THROW_ON_SYS_ERROR(... == -1,
ExecuteError, ...)` on wait failure), `CHECK(WIFEXITED(processStatus) &&
WEXITSTATUS(processStatus) == 0)` on its status (the `CHECK` macro is not
under src/; modelled from the spec as raising `InvariantViolation`), free the
socket session, and fall through to the next iteration. The worker's
handshake outcome (`ev.establish`) plays no part in this path. -/
def cmdServerParentIter (ev : ConnEvent) : LoopControl :=
  if ev.sessionNull then .contin
  else if !ev.waitOk then .err .ExecuteError
  else if !(ev.intermediateStatus == some 0) then .err .InvariantViolation
  else .contin

/-- Run the supervisor over a sequence of loop iterations, returning the
number of iterations completed back to the Listening state, or the error
that terminated the supervisor. -/
def supervisorRun : List ConnEvent → Except ErrorType Nat
  | [] => .ok 0
  | ev :: rest =>
    match cmdServerParentIter ev with
    | .contin =>
      match supervisorRun rest with
      | .ok n => .ok (n + 1)
      | .error e => .error e
    | .brk => .ok 0
    | .err e => .error e

/-- Actions the worker (child) path performs, in order. `establish` records
the `serverLocal.tlsServer` pointer value the worker passes to
`protocolServer` — the snapshot its forked address space holds. -/
inductive WorkerAction where
  | freeServerSocket
  | closeLog
  | detach
  | establish (ctx : Option Nat)
  | handoff
  deriving DecidableEq, Repr

/-- The worker (child, `pid == 0`) path of one loop iteration:
`ioServerFree(socketServer)`, `logClose()`, `forkDetach()`, then
`protocolServer(serverLocal.tlsServer, socketSession)` — using the
`serverLocal.tlsServer` value copied into the child at fork time — and
`cmdRemote(server)` only when a server was returned, followed by `break`.
A handshake error raised by `protocolServer` propagates (`.err`), ending the
loop for the worker as well. -/
def cmdServerWorker (ctxAtSpawn : Option Nat) (ev : ConnEvent) :
    List WorkerAction × LoopControl :=
  let trace : List WorkerAction :=
    [.freeServerSocket, .closeLog, .detach, .establish ctxAtSpawn]
  match ev.establish with
  | .raised e => (trace, .err e)
  | .null => (trace, .brk)
  | .server => (trace ++ [.handoff], .brk)

/-!
## Concrete fixtures used by closed theorems and witnesses
-/

/-- An environment in which every OpenSSL primitive succeeds and
`SSL_OP_NO_RENEGOTIATION` is available. -/
def envOk : TlsEnv :=
  { methodOk := true
    ctxOk := true
    certLoadOk := fun _ => true
    keyLoadOk := fun _ => true
    renegotiationSupported := true }

/-- An environment in which only the key file named `server.key` loads
(any other key file is missing / unreadable / malformed / mismatched). -/
def envKeyStrict : TlsEnv :=
  { envOk with keyLoadOk := fun f => f == "server.key" }

/-- A configuration with no trust anchor and no revocation list. -/
def cfgBase : Config :=
  { tlsServerAddress := "localhost"
    tlsServerPort := 8432
    tlsServerCaFile := none
    tlsServerKeyFile := "server.key"
    tlsServerCertFile := "server.crt"
    tlsServerCrlFile := none
    protocolTimeout := 1830 }

/-- `cfgBase` with a trust-anchor file and a revocation-list file configured. -/
def cfgWithCa : Config :=
  { cfgBase with
    tlsServerCaFile := some "ca.crt"
    tlsServerCrlFile := some "server.crl" }

/-- `cfgBase` with a key file that `envKeyStrict` fails to load. -/
def cfgBadKey : Config :=
  { cfgBase with tlsServerKeyFile := "rotated.key" }

/-- The empty server state before the first `cmdServerInit`. -/
def stEmpty : ServerState :=
  { nextId := 0, alive := [], tlsServer := none }

/-- The state after a successful daemon start
(`cmdServerInit envKeyStrict cfgBase` from the empty state). -/
def stActive : ServerState :=
  (cmdServerInit envKeyStrict cfgBase stEmpty).1

/-- The server that `tlsServerNew envOk "localhost" "server.key" "server.crt" 1830`
builds: all hardened options set, certificate and key loaded. -/
def srvBuilt : TlsServer :=
  { host := "localhost"
    context :=
      { noCompression := true, noSSLv2 := true, noSSLv3 := true
        noTLSv1 := true, noTLSv1_1 := true, cipherServerPreference := true
        noRenegotiation := true, noTicket := true, sessionCacheOff := true
        certLoaded := true, keyLoaded := true }
    timeout := 1830 }

/-- An accepted connection whose worker gets a protocol server back. -/
def evServerOk : ConnEvent :=
  { sessionNull := false, waitOk := true, intermediateStatus := some 0
    establish := .server }

/-- An accepted connection whose worker gets NULL back from `protocolServer`. -/
def evNullOk : ConnEvent :=
  { sessionNull := false, waitOk := true, intermediateStatus := some 0
    establish := .null }

/-- An accepted connection whose worker's handshake raises `TlsError`. -/
def evRaisedOk : ConnEvent :=
  { sessionNull := false, waitOk := true, intermediateStatus := some 0
    establish := .raised .TlsError }

/-- An accepted connection on which `waitpid` itself fails. -/
def evWaitFail : ConnEvent :=
  { sessionNull := false, waitOk := false, intermediateStatus := some 0
    establish := .null }

/-- An accepted connection whose intermediate fork terminates abnormally. -/
def evBadExit : ConnEvent :=
  { sessionNull := false, waitOk := true, intermediateStatus := none
    establish := .null }

/-!
## Theorems for the claims
-/

/-- A freed id is never found again: filtering out id `i` makes a subsequent
search for `i` fail. -/
theorem find_after_filter_out (l : List (Nat × TlsServer)) (i : Nat) :
    (l.filter (fun p => p.1 != i)).find? (fun p => p.1 == i) = none := by
  induction l with
  | nil => rfl
  | cons a l ih =>
    by_cases h : a.1 = i
    · simp [List.filter_cons, h, ih]
    · simp [List.filter_cons, List.find?_cons, h, ih]

/-- C10: every session returned by `tlsServerAccept` has its authenticated
flag explicitly assigned (it is `some _`, set by `ioSessionAuthenticatedSet`)
before the session is returned, and the authentication decision function
`tlsServerAuth` returns `false` on every server and every SSL session, so
every accepted session is marked unauthenticated. -/
theorem tlsServerAccept_always_unauthenticated
    (srv : TlsServer) (raw : RawSession) (s : TlsServer) (ssl : SslSession) :
    (tlsServerAccept srv raw).authenticated = some false ∧
      tlsServerAuth s ssl = false :=
  ⟨rfl, rfl⟩

/-- C2 (code bug): the handshake is not performed under the timeout configured
in the context. A context constructed with a 5000 ms I/O timeout yields, on
accept, a session opened with the fixed 60000 ms bound hard-coded at the
`tlsSessionNew` call (`// !!! FIX TIMEOUT` in the source), not the context
timeout. -/
theorem tlsServerAccept_ignores_configured_timeout :
    (tlsServerNew envOk "localhost" "server.key" "server.crt" 5000).map
        (fun srv => (srv.timeout, (tlsServerAccept srv { id := 0 }).timeout))
      = .ok (5000, 60000) :=
  rfl

/-- C3 (code bug): with no trust anchor configured (none can even be passed to
`tlsServerNew`), a connection that completes the handshake while presenting no
client certificate is marked unauthenticated, not authenticated:
`tlsServerAuth` is a stub returning `false`, so the session's flag is
`some false`. -/
theorem tlsServerAccept_server_only_not_authenticated :
    (tlsServerNew envOk "localhost" "server.key" "server.crt" 5000).map
        (fun srv => (tlsServerAccept srv { id := 0 }).authenticated)
      = .ok (some false) :=
  rfl

/-- C4 (code bug): the trust-anchor and revocation-list options are not
incorporated into the built context. `tlsServerNew` accepts only host, key
file, certificate file and timeout, so `cmdServerInit` builds the same
server whether or not the CA-file and CRL-file options are set. -/
theorem cmdServerInit_independent_of_ca_and_crl
    (env : TlsEnv) (cfg : Config) (st : ServerState)
    (caFile crlFile : Option String) :
    cmdServerInit env { cfg with tlsServerCaFile := caFile, tlsServerCrlFile := crlFile } st
      = cmdServerInit env cfg st :=
  rfl

/-- C5: any failure to load the certificate or the private key (modelled by
the environment's load predicates, covering missing, unreadable, malformed
and mismatched material) makes `tlsServerNew` fail with `ConfigurationError`,
and `cmdServerInit` then installs nothing: the resulting state is exactly the
freed-old state, so the failed context never becomes the active context. -/
theorem tlsServerNew_load_failure_configuration_error
    (env : TlsEnv) (cfg : Config) (st : ServerState)
    (h : env.certLoadOk cfg.tlsServerCertFile = false ∨
         env.keyLoadOk cfg.tlsServerKeyFile = false) :
    tlsServerNew env cfg.tlsServerAddress cfg.tlsServerKeyFile cfg.tlsServerCertFile
        cfg.protocolTimeout = .error .ConfigurationError ∧
      cmdServerInit env cfg st = (ioServerFreeActive st, some .ConfigurationError) := by
  have hfail : tlsServerNew env cfg.tlsServerAddress cfg.tlsServerKeyFile
      cfg.tlsServerCertFile cfg.protocolTimeout = .error .ConfigurationError := by
    unfold tlsServerNew
    rcases h with h | h <;>
      cases hm : env.methodOk <;>
      cases hc : env.ctxOk <;>
      simp [hm, hc, h]
  refine ⟨hfail, ?_⟩
  unfold cmdServerInit
  rw [hfail]

/-- C5 witness: with a certificate that loads but a key file the environment
cannot load, construction fails with `ConfigurationError` and the server
state keeps only the freed-old state. -/
theorem tlsServerNew_load_failure_configuration_error_witness :
    tlsServerNew envKeyStrict cfgBadKey.tlsServerAddress cfgBadKey.tlsServerKeyFile
        cfgBadKey.tlsServerCertFile cfgBadKey.protocolTimeout
      = .error .ConfigurationError ∧
    cmdServerInit envKeyStrict cfgBadKey stActive
      = (ioServerFreeActive stActive, some .ConfigurationError) :=
  tlsServerNew_load_failure_configuration_error envKeyStrict cfgBadKey stActive
    (Or.inr rfl)

/-- C6: every context built by `tlsServerNew` has compression disabled, all
protocol versions prior to TLS 1.2 disabled, session tickets and session
caching disabled, server-preferred cipher ordering enabled, and
renegotiation disabled exactly when the underlying OpenSSL build supports
`SSL_OP_NO_RENEGOTIATION`. -/
theorem tlsServerNew_hardened_options
    (env : TlsEnv) (host keyFile certFile : String) (t : Nat) (srv : TlsServer)
    (h : tlsServerNew env host keyFile certFile t = .ok srv) :
    srv.context.noCompression = true ∧
    srv.context.noSSLv2 = true ∧ srv.context.noSSLv3 = true ∧
    srv.context.noTLSv1 = true ∧ srv.context.noTLSv1_1 = true ∧
    srv.context.noTicket = true ∧ srv.context.sessionCacheOff = true ∧
    srv.context.cipherServerPreference = true ∧
    srv.context.noRenegotiation = env.renegotiationSupported := by
  unfold tlsServerNew at h
  cases hm : env.methodOk <;> rw [hm] at h <;> simp at h
  · cases hc : env.ctxOk <;> rw [hc] at h <;> simp at h
    · cases hcert : env.certLoadOk certFile <;> rw [hcert] at h <;> simp at h
      · cases hkey : env.keyLoadOk keyFile <;> rw [hkey] at h <;> simp at h
        · rw [← h]
          simp

/-- C6 witness: the context built in the all-primitives-succeed environment
has all the hardened options set. -/
theorem tlsServerNew_hardened_options_witness :
    srvBuilt.context.noCompression = true ∧
    srvBuilt.context.noSSLv2 = true ∧ srvBuilt.context.noSSLv3 = true ∧
    srvBuilt.context.noTLSv1 = true ∧ srvBuilt.context.noTLSv1_1 = true ∧
    srvBuilt.context.noTicket = true ∧ srvBuilt.context.sessionCacheOff = true ∧
    srvBuilt.context.cipherServerPreference = true ∧
    srvBuilt.context.noRenegotiation = envOk.renegotiationSupported :=
  tlsServerNew_hardened_options envOk "localhost" "server.key" "server.crt" 1830 srvBuilt rfl

/-- C1 (counterexample): reload is not all-or-nothing. From a state with an
active, serving context, a reload whose context construction fails (the
rotated key file does not load) raises `ConfigurationError` — but the
previously active context has already been freed by `cmdServerInit`, so no
context is active and serving after the failed reload. -/
theorem cmdServerSigHup_failure_previous_context_not_serving :
    activeContext stActive = some srvBuilt ∧
    (cmdServerSigHup envKeyStrict cfgBadKey stActive).2 = some .ConfigurationError ∧
    activeContext (cmdServerSigHup envKeyStrict cfgBadKey stActive).1 = none :=
  ⟨by decide, by decide, by decide⟩

/-- C1 (amended): whenever construction of the new context fails during a
reload, the error propagates and the resulting state is exactly the previous
state with the old context freed: nothing new is installed, and no context
is active and serving afterwards (the old one was freed before construction
was attempted). -/
theorem cmdServerSigHup_failure_frees_previous_context
    (env : TlsEnv) (cfg : Config) (st : ServerState) (e : ErrorType)
    (h : tlsServerNew env cfg.tlsServerAddress cfg.tlsServerKeyFile cfg.tlsServerCertFile
        cfg.protocolTimeout = .error e) :
    cmdServerSigHup env cfg st = (ioServerFreeActive st, some e) ∧
    activeContext (cmdServerSigHup env cfg st).1 = none := by
  have h1 : cmdServerSigHup env cfg st = (ioServerFreeActive st, some e) := by
    unfold cmdServerSigHup cmdServerInit
    rw [h]
  refine ⟨h1, ?_⟩
  rw [h1]
  obtain ⟨n, al, ts⟩ := st
  cases ts with
  | none => rfl
  | some i =>
    have hf : List.find? (fun _ : Nat × TlsServer => false) al = none :=
      List.find?_eq_none.mpr (by intro x hx; simp)
    unfold ioServerFreeActive activeContext
    simp [hf, find_after_filter_out]

/-- C1 (amended) witness: the amended statement at the concrete failed
reload used in the counterexample. -/
theorem cmdServerSigHup_failure_frees_previous_context_witness :
    cmdServerSigHup envKeyStrict cfgBadKey stActive
        = (ioServerFreeActive stActive, some .ConfigurationError) ∧
    activeContext (cmdServerSigHup envKeyStrict cfgBadKey stActive).1 = none :=
  cmdServerSigHup_failure_frees_previous_context envKeyStrict cfgBadKey stActive
    .ConfigurationError rfl

/-- C7: for any sequence of accepted connections on which the wait primitive
succeeds and the intermediate fork exits cleanly — with each connection's
handshake outcome (`establish`) arbitrary — the supervisor completes every
iteration back to the Listening state and also processes the appended
(N+1)-th connection; and the supervisor path of the loop body never executes
`break`, so the `do ... while (true)` loop has no exit in the supervisor
other than the process ending (the fatal error terminations are the subject
of the separate wait-failure claim). -/
theorem cmdServer_supervisor_returns_to_listening
    (evs : List ConnEvent) (ev ex : ConnEvent)
    (h : ∀ e ∈ evs, e.sessionNull = false ∧ e.waitOk = true ∧
        e.intermediateStatus = some 0)
    (h1 : ev.sessionNull = false) (h2 : ev.waitOk = true)
    (h3 : ev.intermediateStatus = some 0) :
    supervisorRun (evs ++ [ev]) = .ok (evs.length + 1) ∧
    cmdServerParentIter ex ≠ .brk := by
  have hgood : ∀ e : ConnEvent, e.sessionNull = false → e.waitOk = true →
      e.intermediateStatus = some 0 → cmdServerParentIter e = .contin := by
    intro e ha hb hc
    unfold cmdServerParentIter
    simp [ha, hb, hc]
  constructor
  · induction evs with
    | nil =>
      simp [supervisorRun, hgood ev h1 h2 h3]
    | cons a l ih =>
      have ha := h a (List.mem_cons_self a l)
      have hl : ∀ e ∈ l, e.sessionNull = false ∧ e.waitOk = true ∧
          e.intermediateStatus = some 0 := fun e he => h e (List.mem_cons_of_mem a he)
      have := ih hl
      simp only [List.cons_append, supervisorRun, hgood a ha.1 ha.2.1 ha.2.2,
        List.append_eq, this, List.length_cons]
  · unfold cmdServerParentIter
    split
    · simp
    · split
      · simp
      · split <;> simp

/-- C7 witness: two accepted connections with opposite handshake outcomes
(one raises `TlsError`, one yields a protocol server) are both completed
back to Listening and a third is then processed; the supervisor iteration on
the third does not break the loop. -/
theorem cmdServer_supervisor_returns_to_listening_witness :
    supervisorRun [evServerOk, evRaisedOk, evNullOk] = .ok 3 ∧
    cmdServerParentIter evNullOk ≠ .brk :=
  cmdServer_supervisor_returns_to_listening [evServerOk, evRaisedOk] evNullOk evNullOk
    (by decide) rfl rfl rfl

/-- C8: the worker path, for every spawn-time context reference and every
establishment outcome, performs in order: release of the listening socket,
closing the log, detaching, then establishment using exactly the context
reference captured at spawn time; it performs the protocol handoff exactly
when establishment returns a protocol server; and it never continues the
accept loop (its iteration ends in `break` or in a propagated error, never
in falling through to the next iteration). -/
theorem cmdServer_worker_sequence (ctxAtSpawn : Option Nat) (ev : ConnEvent) :
    (cmdServerWorker ctxAtSpawn ev).1.take 4 =
      [.freeServerSocket, .closeLog, .detach, .establish ctxAtSpawn] ∧
    (WorkerAction.handoff ∈ (cmdServerWorker ctxAtSpawn ev).1 ↔
      ev.establish = .server) ∧
    (cmdServerWorker ctxAtSpawn ev).2 ≠ .contin := by
  cases hev : ev.establish <;> simp [cmdServerWorker, hev]

/-- C9: on an accepted connection, failure of the wait primitive makes the
supervisor terminate with `ExecuteError` (the code's name for the spec's
ExecutionError) without processing any further connection, and an
intermediate fork status that is not a clean zero exit makes it terminate
with `InvariantViolation` (raised by the `CHECK` on the exit status),
likewise without processing any further connection. -/
theorem cmdServer_wait_failure_fatal (ev : ConnEvent) (rest : List ConnEvent)
    (h : ev.sessionNull = false) :
    (ev.waitOk = false → supervisorRun (ev :: rest) = .error .ExecuteError) ∧
    (ev.waitOk = true → ev.intermediateStatus ≠ some 0 →
      supervisorRun (ev :: rest) = .error .InvariantViolation) := by
  constructor
  · intro hw
    unfold supervisorRun cmdServerParentIter
    simp [h, hw]
  · intro hw hs
    have hbe : (ev.intermediateStatus == some 0) = false := by
      cases hx : ev.intermediateStatus == some 0
      · rfl
      · exact absurd (eq_of_beq hx) hs
    unfold supervisorRun cmdServerParentIter
    simp [h, hw, hbe]

/-- C9 witness: a wait failure terminates the run with `ExecuteError` and an
abnormal intermediate exit terminates it with `InvariantViolation`, in both
cases before the following (well-behaved) connection is processed. -/
theorem cmdServer_wait_failure_fatal_witness :
    supervisorRun [evWaitFail, evServerOk] = .error .ExecuteError ∧
    supervisorRun [evBadExit, evServerOk] = .error .InvariantViolation :=
  ⟨(cmdServer_wait_failure_fatal evWaitFail [evServerOk] rfl).1 rfl,
   (cmdServer_wait_failure_fatal evBadExit [evServerOk] rfl).2 rfl (by decide)⟩

end PgBackRest
